import Mathlib

/-!
# A verification development for the rpage run/streaming/persistence pipeline

This file gives a shallow embedding, in Lean, of the core of the rpage
server (`server.cjs`), its database models (`src/db/models/output.cjs`,
`src/db/models/log.js`, the automations model), and the client layer
(`src/utils/api` fetch helper, `src/stores/outputStore.ts`, and the
`runAutomationById` stream consumer), together with theorems settling the
frozen claims about that code.

Modelling conventions:
* SQLite tables are lists of rows; SQL `DELETE`/`UPDATE`/`INSERT` become
  list operations; `ORDER BY timestamp DESC` becomes a merge sort.
* The rows' `timestamp` columns hold ISO-8601 UTC strings in the source;
  for a fixed format these compare lexicographically exactly as they do
  chronologically, so timestamps are modelled as naturals (milliseconds)
  and the SQL string comparison `timestamp < cutoff` as `<` on naturals.
* JavaScript truthiness of optional string fields is modelled explicitly
  (`none` and `some ""` are falsy).
* The user script is dynamically compiled JavaScript; the sandbox is
  modelled by its observable behaviour towards the coordinator: the
  ordered log lines it emits and its outcome (a resolved value or a
  thrown error message).
-/

namespace Rpage

/-- One row of the `outputs` table (an OutputArtifact). -/
structure Output where
  id : String
  automationId : String
  name : String
  type : String
  data : String
  timestamp : Nat
  deriving DecidableEq, Repr

/-- Milliseconds per day, used to model `cutoffDate.setDate(getDate() - days)`. -/
def msPerDay : Nat := 86400000

namespace OutputModel

/-- `ORDER BY timestamp DESC` over the outputs table. -/
def sortByTimestampDesc (rows : List Output) : List Output :=
  rows.mergeSort (fun a b => b.timestamp ≤ a.timestamp)

/-- Result shape of `OutputModel.getAll(page, limit, skip)`. -/
structure GetAllResult where
  files : List Output
  total : Nat
  page : Nat
  limit : Nat
  deriving Repr, DecidableEq

/-- `OutputModel.getAll` from `src/db/models/output.cjs`:
`offset = (page - 1) * limit + skip`, total row count, then
`SELECT * FROM outputs ORDER BY timestamp DESC LIMIT ? OFFSET ?`. -/
def getAll (rows : List Output) (page : Nat := 1) (limit : Nat := 20)
    (skip : Nat := 0) : GetAllResult :=
  let offset := (page - 1) * limit + skip
  let totalCount := rows.length
  let results := ((sortByTimestampDesc rows).drop offset).take limit
  { files := results, total := totalCount, page := page, limit := limit }

/-- `OutputModel.getById`: `SELECT * FROM outputs WHERE id = ?`. -/
def getById (rows : List Output) (id : String) : Option Output :=
  rows.find? (fun o => o.id = id)

/-- `OutputModel.delete`: returns the table unchanged when the id is absent,
otherwise the table with that id deleted.  The second component models the
JS return value (`null` versus `{ id }`). -/
def deleteById (rows : List Output) (id : String) : List Output × Option String :=
  match getById rows id with
  | none => (rows, none)
  | some _ => (rows.filter (fun o => o.id ≠ id), some id)

/-- `OutputModel.create`: `INSERT INTO outputs ...`; throws on a duplicate
primary key.  The model returns `none` for the throwing case. -/
def create (rows : List Output) (output : Output) : Option (List Output) :=
  if rows.any (fun o => o.id = output.id) then none
  else some (rows ++ [output])

/-- `OutputModel.saveOutput(automationId, data, name, type)`: builds a row with
`id = Date.now().toString()` and the current timestamp, inserts it, and
catches every error, returning `null` (`none`) instead of throwing.
`createFails` models an insert that throws (e.g. a failed write).
In the server the `data` argument is already a string. -/
def saveOutput (rows : List Output) (automationId data name type : String)
    (nowMs : Nat) (createFails : Bool) : List Output × Option Output :=
  let output : Output :=
    { id := toString nowMs, automationId := automationId, name := name,
      type := type, data := data, timestamp := nowMs }
  if createFails then (rows, none)
  else
    match create rows output with
    | none => (rows, none)
    | some rows2 => (rows2, some output)

/-- Result counts returned by `cleanupOldOutputs`. -/
structure CleanupResult where
  deleted : Nat
  oldOutputsRemoved : Nat
  nonScreenshotsRemoved : Nat
  deriving Repr, DecidableEq

/-- The retention sweep `OutputModel.cleanupOldOutputs(days)`:
select the rows older than the cutoff, select the rows whose type is not
`"screenshot"`, combine, deduplicate the ids (a JS `Set`), and delete each
id in turn, counting the deletions. -/
def cleanupOldOutputs (rows : List Output) (now days : Nat) :
    List Output × CleanupResult :=
  let cutoffTimestamp := now - days * msPerDay
  let screenshotType := "screenshot"
  let oldOutputsToDelete := rows.filter (fun o => o.timestamp < cutoffTimestamp)
  let nonScreenshotOutputs := rows.filter (fun o => o.type ≠ screenshotType)
  let outputsToDelete := oldOutputsToDelete ++ nonScreenshotOutputs
  let outputIdsToDelete := (outputsToDelete.map (fun o => o.id)).dedup
  let final := outputIdsToDelete.foldl
    (fun acc id =>
      let r := deleteById acc.1 id
      (r.1, acc.2 + 1))
    (rows, 0)
  (final.1,
   { deleted := final.2,
     oldOutputsRemoved := oldOutputsToDelete.length,
     nonScreenshotsRemoved := nonScreenshotOutputs.length })

end OutputModel

/-- The JSON body returned by `GET /api/outputs` in `server.cjs`. -/
structure OutputsResponse where
  success : Bool
  files : List Output
  count : Nat
  total : Nat
  page : Nat
  limit : Nat
  hasMore : Bool
  deriving Repr, DecidableEq

/-- The `GET /api/outputs` handler from `server.cjs`: paginated read plus
`hasMore: (result.page * result.limit) < result.total`. -/
def outputsHandler (rows : List Output) (page limit skip : Nat) : OutputsResponse :=
  let result := OutputModel.getAll rows page limit skip
  { success := true
    files := result.files
    count := result.files.length
    total := result.total
    page := result.page
    limit := result.limit
    hasMore := result.page * result.limit < result.total }

/-! ## The automations and logs tables -/

/-- One row of the `automations` table. -/
structure Automation where
  id : String
  name : String
  description : String
  script : String
  status : String
  createdAt : String
  updatedAt : String
  deriving Repr, DecidableEq

/-- One row of the `logs` table (a LogEntry). -/
structure LogEntry where
  id : String
  automationId : String
  automationName : String
  status : String
  output : String
  timestamp : String
  deriving Repr, DecidableEq

namespace AutomationModel

/-- `AutomationModel.getById`: `SELECT * FROM automations WHERE id = ?`. -/
def getById (rows : List Automation) (id : String) : Option Automation :=
  rows.find? (fun a => a.id = id)

/-- `AutomationModel.updateStatus`: `UPDATE automations SET status = ?,
updatedAt = ? WHERE id = ?` (a no-op when the id matches no row). -/
def updateStatus (rows : List Automation) (id status nowISO : String) :
    List Automation :=
  rows.map (fun a =>
    if a.id = id then { a with status := status, updatedAt := nowISO } else a)

end AutomationModel

namespace LogModel

/-- `LogModel.create`: `INSERT INTO logs ...`. -/
def create (rows : List LogEntry) (entry : LogEntry) : List LogEntry :=
  rows ++ [entry]

end LogModel

/-! ## The screenshot-filename regexes of `server.cjs`

`logCapture` scans every log line with
`/Taking screenshot and saving to:.*?([^\/\\]+\.png)/` and, on the success
path, the result path is reduced with `/([^\/\\]+)$/`.  Both regexes are
modelled character by character: a lazy `.*?` over non-newline characters,
a greedy (backtracking) `[^\/\\]+`, and the literal `.png`.  (`\r` and the
other rare JS line terminators are not distinguished from ordinary
characters.) -/

def isSlashChar (c : Char) : Bool := c = '/' || c = '\\'

def pngSuffixChars : List Char := ['.', 'p', 'n', 'g']

/-- One attempt of `([^\/\\]+\.png)` anchored at the start of `cs`: the
greedy `[^\/\\]+` takes the maximal slash-free run, then backtracks, so the
capture ends at the last `.png` inside that run that leaves at least one
character for the `+`. -/
def pngCaptureHere (cs : List Char) : Option (List Char) :=
  let run := cs.takeWhile (fun c => !isSlashChar c)
  let candidates := (List.range (run.length + 1)).filter
    (fun r => decide (1 ≤ r) && decide ((run.drop r).take 4 = pngSuffixChars))
  match candidates.max? with
  | some r => some (run.take (r + 4))
  | none => none

/-- The lazy `.*?`: try the capture at each successive position, consuming
only non-newline characters, and stop at the first success. -/
def lazyPngScan : List Char → Option (List Char)
  | [] => none
  | c :: rest =>
    match pngCaptureHere (c :: rest) with
    | some cap => some cap
    | none => if c = '\n' then none else lazyPngScan rest

/-- Scan for the first position where the whole pattern (marker, lazy gap,
capture) matches, the way the JS regex engine advances its start index. -/
def pngScanFrom (markerChars : List Char) : List Char → Option (List Char)
  | [] => none
  | l@(_ :: rest) =>
    if l.take markerChars.length = markerChars then
      match lazyPngScan (l.drop markerChars.length) with
      | some cap => some cap
      | none => pngScanFrom markerChars rest
    else pngScanFrom markerChars rest

def screenshotMarker : String := "Taking screenshot and saving to:"

/-- `logMessage.match(/Taking screenshot and saving to:.*?([^\/\\]+\.png)/)`,
returning the first capture group. -/
def jsScreenshotRegexCapture (s : String) : Option String :=
  (pngScanFrom screenshotMarker.data s.data).map (fun cs => String.mk cs)

/-- JS `String.prototype.includes` on the marker. -/
def hasSubList (sub : List Char) : List Char → Bool
  | [] => sub.isEmpty
  | l@(_ :: rest) => if l.take sub.length = sub then true else hasSubList sub rest

/-- The screenshot-hint update performed by `logCapture` on one log line:
if the line includes the marker and the regex captures a filename, the hint
is overwritten; otherwise it is kept. -/
def logCaptureScreenshot (cur : Option String) (logMessage : String) :
    Option String :=
  if hasSubList screenshotMarker.data logMessage.data then
    match jsScreenshotRegexCapture logMessage with
    | some f => some f
    | none => cur
  else cur

/-- `result.screenshotPath.match(/([^\/\\]+)$/)`: the maximal non-empty
slash-free suffix (the path basename), if any. -/
def lastBasename (s : String) : Option String :=
  let revRun := s.data.reverse.takeWhile (fun c => !isSlashChar c)
  if revRun.isEmpty then none else some (String.mk revRun.reverse)

/-! ## The script sandbox's observable behaviour -/

/-- The `screenshot` field of a resolved script result, classified the way
`server.cjs` inspects it (`typeof` object / string / other truthy value).
String escaping inside the serialized object is not modelled. -/
inductive ScreenshotVal
  | strv (s : String)
  | objv (name : Option String) (json : String)
  | prim
  deriving Repr, DecidableEq

/-- JS truthiness of `result.screenshot` (`none` and the empty string are
falsy; `prim` stands for a truthy non-string non-object value). -/
def ScreenshotVal.isTruthy : Option ScreenshotVal → Bool
  | none => false
  | some (.strv s) => s ≠ ""
  | some _ => true

/-- JS truthiness of an optional string field. -/
def optStrTruthy : Option String → Bool
  | none => false
  | some s => s ≠ ""

/-- The value a script's `run()` resolves to, as observed by the
coordinator: its truthiness, the three designated screenshot fields, and
its `JSON.stringify(result, null, 2)` rendering. -/
structure JSResult where
  truthy : Bool
  screenshot : Option ScreenshotVal := none
  screenshotName : Option String := none
  screenshotPath : Option String := none
  json : String := "undefined"
  deriving Repr, DecidableEq

deriving instance DecidableEq for Except

/-- The sandboxed script's observable behaviour: the log lines it emits (in
order, already joined the way `logCapture` joins its arguments) and its
outcome — a resolved value or a thrown error message. -/
structure ScriptExec where
  logLines : List String
  outcome : Except String JSResult
  deriving Repr, DecidableEq

/-! ## The event-stream protocol and the run coordinator -/

/-- A server-sent event, one `data: <json>` frame.  The optional fields of
`complete` model keys that are absent from the failure-path event. -/
inductive SEvent
  | status (status message : String)
  | log (message : String)
  | complete (success : Bool) (output : String) (error : Option String)
      (result : Option JSResult) (screenshotFilename : Option (Option String))
      (executionTime : Option String)
  deriving Repr, DecidableEq

def SEvent.isComplete : SEvent → Bool
  | .complete .. => true
  | _ => false

def SEvent.isLog : SEvent → Bool
  | .log _ => true
  | _ => false

def SEvent.isStatus : SEvent → Bool
  | .status _ _ => true
  | _ => false

/-- The success flags of the complete events of a stream. -/
def completeSuccesses (es : List SEvent) : List Bool :=
  es.filterMap (fun e =>
    match e with
    | .complete s _ _ _ _ _ => some s
    | _ => none)

/-- The `screenshotFilename` fields of the complete events of a stream. -/
def completeScreenshotFilenames (es : List SEvent) : List (Option (Option String)) :=
  es.filterMap (fun e =>
    match e with
    | .complete _ _ _ _ f _ => some f
    | _ => none)

/-- The three persisted collections. -/
structure Db where
  automations : List Automation
  logs : List LogEntry
  outputs : List Output
  deriving Repr, DecidableEq

/-- The clock values a run observes: `Date.now()` (used for row ids and
artifact timestamps), `toISOString`, `toLocaleString`, and the script's
wall-clock duration. -/
structure RunEnv where
  nowMs : Nat
  nowISO : String
  nowLocale : String
  durationMs : Nat
  deriving Repr, DecidableEq

/-- Infrastructure faults injected into the persistence layer: whether the
artifact insert throws inside `saveOutput`, and whether `LogModel.create`
throws at its success-path and failure-path call sites. -/
structure Faults where
  saveOutputFails : Bool := false
  logCreateFailsOnSuccess : Bool := false
  logCreateFailsOnFailure : Bool := false
  logCreateErrMsg : String := "database write failed"
  deriving Repr, DecidableEq

/-- Models `((Date.now() - startTime) / 1000).toFixed(2)` — seconds with two
decimals, half-up rounding (exact on the discrete millisecond inputs). -/
def toFixed2Seconds (ms : Nat) : String :=
  let h := (ms + 5) / 10
  let intPart := h / 100
  let frac := h % 100
  toString intPart ++ "." ++ (if frac < 10 then "0" else "") ++ toString frac

/-- The observable outcome of `POST /api/run-automation`: either the
synchronous 400 rejection (no stream opened), or an opened stream with its
emitted events, whether `res.end()` was reached, and the final database. -/
inductive RunResponse
  | badRequest
  | stream (events : List SEvent) (closed : Bool) (db : Db)
  deriving Repr, DecidableEq

def RunResponse.events : RunResponse → List SEvent
  | .badRequest => []
  | .stream es _ _ => es

/-- Whether the opened stream was ended by the handler (`false` also for the
no-stream 400 response). -/
def RunResponse.streamClosed : RunResponse → Bool
  | .badRequest => false
  | .stream _ closed _ => closed

/-- The database after the request (`d` when no stream was opened — the 400
path touches nothing). -/
def RunResponse.dbOr (d : Db) : RunResponse → Db
  | .badRequest => d
  | .stream _ _ db => db

/-- The screenshot-persistence block of `server.cjs` (lines 232–285): choose
a name, build the data object, stringify it, and `saveOutput(id, data,
name, 'screenshot')` with every error caught.  Only the outputs table can
change. -/
def saveScreenshotBlock (automation : Automation) (result : JSResult)
    (outs : List Output) (id : String) (env : RunEnv) (saveFails : Bool) :
    List Output :=
  let aname := automation.name
  let loc := env.nowLocale
  let generatedName := s!"Screenshot for {aname} at {loc}"
  let screenshotName :=
    if optStrTruthy result.screenshotName then result.screenshotName.getD ""
    else
      match result.screenshot with
      | some (.objv nm _) => if optStrTruthy nm then nm.getD "" else generatedName
      | some (.strv s) => s
      | _ => generatedName
  let iso := env.nowISO
  let screenshotDataJson :=
    match result.screenshot with
    | some (.objv _ json) => json
    | _ =>
      "\x7b\"name\":\"" ++ screenshotName ++ "\",\"timestamp\":\"" ++ iso ++
        "\",\"format\":\"png\",\"source\":\"" ++ aname ++ "\"\x7d"
  (OutputModel.saveOutput outs id screenshotDataJson screenshotName
    ("screenshot") env.nowMs saveFails).1

/-- The inner `catch` block of the run handler (lines 324–351): status →
`failed`, a failed LogEntry whose output is the error message followed by
the captured log lines, then the failure complete event and `res.end()`.
When the automation row is missing, `automation.name` raises a TypeError
and the outer catch cannot respond on a started stream; the same happens
when the failure-path `LogModel.create` itself throws — in both cases no
complete event is written and the stream is not ended. -/
def runCatchBlock (db : Db) (autos : List Automation) (outs : List Output)
    (id : String) (events0 : List SEvent) (logLines : List String)
    (errMsg : String) (faults : Faults) (env : RunEnv) : RunResponse :=
  let autos2 := AutomationModel.updateStatus autos id ("failed") env.nowISO
  match AutomationModel.getById autos2 id with
  | none => .stream events0 false ⟨autos2, db.logs, outs⟩
  | some automation =>
    if faults.logCreateFailsOnFailure then
      .stream events0 false ⟨autos2, db.logs, outs⟩
    else
      let joined := String.intercalate ("\n") logLines
      let entry : LogEntry :=
        { id := toString env.nowMs, automationId := id,
          automationName := automation.name, status := "failed",
          output := s!"Error: {errMsg}\n\n{joined}", timestamp := env.nowISO }
      let logs2 := LogModel.create db.logs entry
      let completeEv :=
        SEvent.complete false (s!"Error: {errMsg}") (some errMsg) none none none
      .stream (events0 ++ [completeEv]) true ⟨autos2, logs2, outs⟩

/-- The tail of the success path (lines 298–323): status → `completed`, the
completed LogEntry, the success complete event, `res.end()`.  When the
automation row is missing, `automation.name` raises a TypeError into the
inner catch (which raises again); a throwing success-path
`LogModel.create` transfers control to the catch block. -/
def runSuccessCompletion (db : Db) (autos : List Automation)
    (outs : List Output) (id : String) (events0 : List SEvent)
    (logLines : List String) (output : String) (result : JSResult)
    (hint2 : Option String) (executionTime : String) (faults : Faults)
    (env : RunEnv) : RunResponse :=
  let autos2 := AutomationModel.updateStatus autos id ("completed") env.nowISO
  match AutomationModel.getById autos2 id with
  | none => .stream events0 false ⟨autos2, db.logs, outs⟩
  | some automation =>
    if faults.logCreateFailsOnSuccess then
      runCatchBlock db autos2 outs id events0 logLines faults.logCreateErrMsg
        faults env
    else
      let entry : LogEntry :=
        { id := toString env.nowMs, automationId := id,
          automationName := automation.name, status := "completed",
          output := output, timestamp := env.nowISO }
      let logs2 := LogModel.create db.logs entry
      let completeEv :=
        SEvent.complete true output none (some result) (some hint2)
          (some executionTime)
      .stream (events0 ++ [completeEv]) true ⟨autos2, logs2, outs⟩

/-- The `POST /api/run-automation` handler of `server.cjs`, as a function of
the script's observable behaviour and the injected persistence faults.
An empty script is rejected synchronously.  Otherwise the stream opens
with `status(running)`, the automation's status is set to `running`, the
script's log lines are captured (scanning each for a screenshot-filename
hint) and emitted live, and the run completes on the success or failure
path.  A truthy result whose automation id is missing from the database
hits the early `return` (line 228): the handler exits without a complete
event, without `res.end()`, and without creating a LogEntry. -/
def runAutomationHandler (db : Db) (id name script : String)
    (exec : ScriptExec) (faults : Faults) (env : RunEnv) : RunResponse :=
  if script = "" then .badRequest
  else
    let statusEvent := SEvent.status ("running") ("Starting automation...")
    let autos1 := AutomationModel.updateStatus db.automations id ("running") env.nowISO
    let logEvents := exec.logLines.map SEvent.log
    let events0 := statusEvent :: logEvents
    let hint := exec.logLines.foldl logCaptureScreenshot none
    match exec.outcome with
    | .error errMsg =>
      runCatchBlock db autos1 db.outputs id events0 exec.logLines errMsg faults env
    | .ok result =>
      let executionTime := toFixed2Seconds env.durationMs
      let rjson := result.json
      let joined := String.intercalate ("\n") exec.logLines
      let output :=
        joined ++ s!"\nTotal execution time: {executionTime} seconds\n\nReturned result: {rjson}"
      let hint2 :=
        if result.truthy ∧ optStrTruthy result.screenshotPath ∧ hint = none then
          match lastBasename (result.screenshotPath.getD "") with
          | some f => some f
          | none => hint
        else hint
      if result.truthy ∧ (AutomationModel.getById autos1 id).isNone then
        .stream events0 false { db with automations := autos1 }
      else
        let outs2 :=
          if result.truthy ∧ ScreenshotVal.isTruthy result.screenshot then
            match AutomationModel.getById autos1 id with
            | some automation =>
              saveScreenshotBlock automation result db.outputs id env
                faults.saveOutputFails
            | none => db.outputs
          else db.outputs
        runSuccessCompletion db autos1 outs2 id events0 exec.logLines output
          result hint2 executionTime faults env

/-! ## The client fetch helper (`src/utils/api`, fetchAPI) -/

/-- A JSON-ish JavaScript value as seen by the client (`response.json()`
results and fallback values). -/
inductive JValue
  | jnull
  | jbool (b : Bool)
  | jnum (n : Int)
  | jstr (s : String)
  | jarr (elems : List JValue)
  | jobj (fields : List (String × JValue))
  deriving Repr

/-- JS `typeof` (note `typeof null === 'object'`). -/
def JValue.typeofStr : JValue → String
  | .jnull => "object"
  | .jbool _ => "boolean"
  | .jnum _ => "number"
  | .jstr _ => "string"
  | .jarr _ => "object"
  | .jobj _ => "object"

def JValue.isTruthy : JValue → Bool
  | .jnull => false
  | .jbool b => b
  | .jnum n => n ≠ 0
  | .jstr s => s ≠ ""
  | .jarr _ => true
  | .jobj _ => true

/-- Property access; `none` models `undefined` (also for access on
non-objects, where the keys used by the client are absent). -/
def JValue.field (v : JValue) (key : String) : Option JValue :=
  match v with
  | .jobj fields => (fields.find? (fun p => p.1 = key)).map (fun p => p.2)
  | _ => none

/-- JS truthiness of a possibly-`undefined` value. -/
def jsOptTruthy : Option JValue → Bool
  | none => false
  | some v => v.isTruthy

/-- `x === true` on a possibly-`undefined` value. -/
def jsStrictEqTrue : Option JValue → Bool
  | some (.jbool b) => b
  | _ => false

/-- How a single HTTP request ends at the transport level. -/
inductive TransportOutcome
  | ok (body : JValue)
  | httpError (status : Nat) (details : String)
  | networkError (msg : String)
  | timedOut
  deriving Repr

/-- The `error.message` that reaches fetchAPI's outer catch. -/
def transportErrMsg (endpoint : String) : TransportOutcome → String
  | .ok _ => ""
  | .httpError status details => s!"HTTP error {status}: {details}"
  | .networkError msg => msg
  | .timedOut => s!"Request to {endpoint} timed out"

/-- fetchAPI's catch-all fallback (`src/utils/api` lines 115–146): mock
empty arrays for the logs and outputs listing endpoints, a mock settings
object for `/settings`, and otherwise an error-marker object. -/
def fetchFallback (endpoint : String) (errMsg : String) : JValue :=
  if endpoint = "/logs" ∨ endpoint = "/logs-direct" then .jarr []
  else if endpoint = "/outputs" ∨ endpoint = "/outputs-direct" then .jarr []
  else if endpoint = "/settings" then
    .jobj [("notificationsEnabled", .jbool true), ("darkTheme", .jbool true),
      ("keepOutputDays", .jnum 7)]
  else
    .jobj [("success", .jbool false),
      ("error", .jstr (if errMsg = "" then "Unknown API error" else errMsg)),
      ("isErrorResponse", .jbool true)]

/-- The client-side response cache (endpoint key, cached data, store time). -/
def ApiCache := List (String × JValue × Nat)

def CACHE_EXPIRY : Nat := 30000

/-- `fetchAPI(endpoint, options)`: serve GET requests from the unexpired
cache; otherwise hit the transport, cache a successful GET body, and on
ANY failure resolve (never reject) with the endpoint's fallback value. -/
def fetchAPIModel (cache : ApiCache) (now : Nat) (endpoint : String)
    (isGet : Bool) (outcome : TransportOutcome) : JValue × ApiCache :=
  let fresh : JValue × ApiCache :=
    match outcome with
    | .ok body =>
      (body,
       if isGet then
         (cache.filter (fun e => e.1 ≠ endpoint)) ++ [(endpoint, body, now)]
       else cache)
    | failure => (fetchFallback endpoint (transportErrMsg endpoint failure), cache)
  if isGet then
    match cache.find? (fun e => e.1 = endpoint) with
    | some e => if now - e.2.2 < CACHE_EXPIRY then (e.2.1, cache) else fresh
    | none => fresh
  else fresh

/-! ## The client output store (`src/stores/outputStore.ts`) -/

/-- A client-side artifact row. -/
structure OutputFile where
  id : String
  automationId : String
  name : String
  type : String
  data : String
  timestamp : Nat
  deriving Repr, DecidableEq

def PAGE_SIZE : Nat := 30
def PRIORITY_FILES_COUNT : Nat := 5

/-- `CACHE_TTL` for the grouped-by-type view (3 seconds). -/
def GROUP_CACHE_TTL : Nat := 3000

/-- The store's mutable state: the two file lists, the grouped-view cache
(`outputsByTypeCache`), and the pagination cursor state. -/
structure OutputStoreState where
  outputFiles : List OutputFile
  priorityOutputFiles : List OutputFile
  cacheData : Option (List (String × List OutputFile))
  cacheTimestamp : Nat
  currentPage : Nat
  hasMoreOutputs : Bool
  isPriorityLoaded : Bool
  deriving Repr, DecidableEq

/-- `file.type || 'other'`. -/
def fileTypeKey (f : OutputFile) : String :=
  if f.type = "" then "other" else f.type

/-- Append a file to its type's group, creating the group on first use (the
JS object preserves key insertion order). -/
def pushGroup (g : List (String × List OutputFile)) (key : String)
    (f : OutputFile) : List (String × List OutputFile) :=
  if g.any (fun p => p.1 = key) then
    g.map (fun p => if p.1 = key then (p.1, p.2 ++ [f]) else p)
  else g ++ [(key, [f])]

/-- The grouping computed by the `outputsByType` derived store: all
priority files first, then at most 50 regular files not already among the
priority files, each group finally sorted newest-first. -/
def computeGrouping (priorityFiles outputFiles : List OutputFile) :
    List (String × List OutputFile) :=
  let g1 := priorityFiles.foldl (fun g f => pushGroup g (fileTypeKey f) f) []
  let priorityIds := priorityFiles.map (fun f => f.id)
  let remainingFiles :=
    (outputFiles.filter (fun f => !priorityIds.contains f.id)).take 50
  let g2 := remainingFiles.foldl (fun g f => pushGroup g (fileTypeKey f) f) g1
  g2.map (fun p => (p.1, p.2.mergeSort (fun a b => b.timestamp ≤ a.timestamp)))

/-- One read of the `outputsByType` derived view at time `now`: return the
cached grouping while it is younger than the TTL, otherwise recompute from
the current lists and cache the result. -/
def outputsByTypeRead (st : OutputStoreState) (now : Nat) :
    List (String × List OutputFile) × OutputStoreState :=
  let grouped := computeGrouping st.priorityOutputFiles st.outputFiles
  let recomputed :=
    (grouped, { st with cacheData := some grouped, cacheTimestamp := now })
  match st.cacheData with
  | some d => if now - st.cacheTimestamp < GROUP_CACHE_TTL then (d, st) else recomputed
  | none => recomputed

/-- `resetOutputPagination()`: clear both lists, reset the cursor, and
invalidate `outputsByTypeCache`. -/
def resetOutputPagination (st : OutputStoreState) : OutputStoreState :=
  { st with
    outputFiles := []
    priorityOutputFiles := []
    isPriorityLoaded := false
    currentPage := 1
    hasMoreOutputs := true
    cacheData := none
    cacheTimestamp := 0 }

/-- `loadMoreOutputs()` after a fetch that yielded `newOutputs`: update the
`hasMore`/page cursor, drop files already among the priority files, and
append the rest to `outputFiles`.  The grouped-view cache is NOT touched
here. -/
def loadMoreOutputs (st : OutputStoreState) (newOutputs : List OutputFile) :
    OutputStoreState :=
  if !st.hasMoreOutputs then st
  else
    let st1 :=
      if newOutputs.length < PAGE_SIZE then { st with hasMoreOutputs := false }
      else { st with currentPage := st.currentPage + 1 }
    if newOutputs.length > 0 then
      let priorityIds := st1.priorityOutputFiles.map (fun f => f.id)
      let filtered := newOutputs.filter (fun f => !priorityIds.contains f.id)
      { st1 with outputFiles := st1.outputFiles ++ filtered }
    else st1

/-- The optimistic local part of `deleteOutputFile`: remove the id from both
lists and invalidate the grouped-view cache, before the server round trip. -/
def deleteOutputLocal (st : OutputStoreState) (id : String) : OutputStoreState :=
  { st with
    outputFiles := st.outputFiles.filter (fun f => f.id ≠ id)
    priorityOutputFiles := st.priorityOutputFiles.filter (fun f => f.id ≠ id)
    cacheData := none
    cacheTimestamp := 0 }

/-- The post-response `outputsByType.update(value => value)` call of
`deleteOutputFile` (`outputStore.ts` line 473): `outputsByType` is created
with `derived(...)`, which exposes only `subscribe` — it has no `update`
method, so this call raises a TypeError every time it is reached. -/
def outputsByTypeUpdateCall : Except String Unit :=
  .error "outputsByType.update is not a function"

/-- `deleteOutputFile(id)`: optimistic local removal, then the DELETE
request through fetchAPI (which never rejects), then the post-response UI
refresh — whose `outputsByType.update(value => value)` throws a TypeError
on the derived store, landing in the function's catch, which logs the
error and returns `false`.  The response checks (`success === true`,
`data.id`, then `typeof response === 'object'`) sit below the throwing
line and are unreachable.  The optimistic removal is never rolled back
(the two writable-store updates before the throw are identity re-sets). -/
def deleteOutputFile (st : OutputStoreState) (id : String)
    (outcome : TransportOutcome) : OutputStoreState × Bool :=
  let st1 := deleteOutputLocal st id
  let response := (fetchAPIModel [] 0 (s!"/outputs/{id}") false outcome).1
  match outputsByTypeUpdateCall with
  | .error _ => (st1, false)
  | .ok _ =>
    let ret :=
      if response.isTruthy &&
          (jsStrictEqTrue (response.field ("success")) ||
            (jsOptTruthy (response.field ("data")) &&
              jsOptTruthy ((response.field ("data")).bind
                (fun d => d.field ("id"))))) then
        true
      else if response.typeofStr = "object" then true
      else false
    (st1, ret)

/-! ## The client stream consumer (`runAutomationById`) and the simulated
fallback runner (`src/utils/playwright.ts`) -/

/-- What the client surfaces to its caller for one run. -/
structure ClientRunResult where
  success : Bool
  output : String
  result : Option JSResult := none
  deriving Repr, DecidableEq

/-- The time-dependent strings of the simulated runner: the
colon-stripped ISO timestamp and the printed execution time. -/
structure ClientSimEnv where
  timestampStr : String
  executionTimeStr : String
  deriving Repr, DecidableEq

def simContentText : String :=
  "An apple is a round, edible fruit produced by an apple tree (Malus domestica). Apple trees are cultivated worldwide and are the most widely grown species in the genus Malus. The tree originated in Central Asia..."

/-- The fixed console output of the simulated runner's `steps()`. -/
def simulatedLogLines (env : ClientSimEnv) : List String :=
  let ts := env.timestampStr
  let et := env.executionTimeStr
  let preview := simContentText.take 150
  [ "Starting Wikipedia search automation...",
    "Launching browser with options: \x7b\"headless\":true\x7d",
    "Creating new page",
    "Navigating to https://en.wikipedia.org/",
    "Searching for \x27apples\x27",
    "Filling input#searchInput with \"apples\"",
    "Clicking on input[type=\"submit\"]",
    "Waiting for search results",
    "Waiting for load state: networkidle",
    "Getting page title",
    "Page title: Apple - Wikipedia",
    "Evaluating #mw-content-text p",
    "Content preview: " ++ preview ++ "...",
    "Taking screenshot and saving to: static/outputs/wikipedia-apples-" ++ ts ++ ".png",
    "Screenshot saved as: wikipedia-apples-" ++ ts ++ ".png",
    "Closing browser",
    "Automation completed successfully",
    "Total execution time: " ++ et ++ " seconds" ]

/-- `JSON.stringify(result, null, 2)` of the simulated result object. -/
def simResultJson (env : ClientSimEnv) : String :=
  let ts := env.timestampStr
  "\x7b\n  \"title\": \"Apple - Wikipedia\",\n  \"searchTerm\": \"apples\",\n  \"content\": \"" ++
    simContentText ++
    "\",\n  \"screenshotPath\": \"static/outputs/wikipedia-apples-" ++ ts ++
    ".png\",\n  \"timestamp\": \"" ++ ts ++ "\"\n\x7d"

/-- The simulated `runAutomation` of `src/utils/playwright.ts`: its
`steps()` body is deterministic and never throws, so it always resolves
`success: true` with the captured console output, the rendered result and
the simulated output-file line.  (The `includes("playwright.chromium.launch")`
branch composes the same three pieces and is therefore not distinguished.) -/
def runAutomationSim (env : ClientSimEnv) : ClientRunResult :=
  let captured :=
    String.intercalate ("") ((simulatedLogLines env).map (fun l => l ++ "\n"))
  let ts := env.timestampStr
  { success := true,
    output := captured ++ "\nReturned result: " ++ simResultJson env ++
      "\nOutput saved to: output_auto_" ++ ts ++ ".txt" }

def CLIENT_TIMEOUT_MS : Nat := 120000

/-- The client consumer of `runAutomationById`: the stream's decoded events
with their arrival times.  `streamEndMs` is when the stream ended, used by
the no-complete rejection. -/
def firstCompleteFrame (frames : List (Nat × SEvent)) : Option (Nat × SEvent) :=
  frames.find? (fun f => f.2.isComplete)

/-- The value `runAutomationById` ends up with for `result`: the completion
promise resolves on the first complete event; it races the fixed
120-second timeout; every rejection (timeout, or stream ended without a
complete event) is caught by the `serverError` catch, which falls back to
the simulated runner.  A settlement exactly at the timeout instant is
resolved in favour of the completion promise being too late. -/
def clientRunResult (frames : List (Nat × SEvent)) (streamEndMs : Nat)
    (sim : ClientSimEnv) : ClientRunResult :=
  match firstCompleteFrame frames with
  | some (t, e) =>
    if t < CLIENT_TIMEOUT_MS then
      match e with
      | .complete s out err r _ _ =>
        if s then { success := true, output := out, result := r }
        else
          { success := false,
            output := if out = "" then "Error: " ++ (err.getD ("undefined")) else out }
      | _ => runAutomationSim sim
    else runAutomationSim sim
  | none => runAutomationSim sim

/-! ## Concrete sample values used by witnesses and counterexamples -/

/-- The final status of the automation row after a run. -/
def finalAutomationStatus (d : Db) (r : RunResponse) (id : String) : Option String :=
  (AutomationModel.getById ((r.dbOr d).automations) id).map (fun a => a.status)

def sampleAutomation : Automation :=
  ⟨"a1", "Auto One", "", "script body", "idle", "t0", "t0"⟩

def dbEmpty : Db := ⟨[], [], []⟩

def dbOne : Db := ⟨[sampleAutomation], [], []⟩

def envW : RunEnv := ⟨1000, "2026-01-01T00:00:00.000Z", "1/1/2026, 00:00:00", 2345⟩

/-- A script that resolves a plain truthy value after one log line. -/
def execTruthy : ScriptExec := ⟨["hi"], .ok { truthy := true }⟩

/-- A truthy result carrying both a screenshot payload and an authoritative
`screenshotPath` whose basename is `real.png`. -/
def shotResult : JSResult :=
  { truthy := true, screenshot := some (.objv (some "shot") "\x7b\x7d"),
    screenshotPath := some "/o/real.png" }

/-- A script that logs a screenshot line (yielding the hint `hint.png`) and
resolves `shotResult`. -/
def execShot : ScriptExec :=
  ⟨["Taking screenshot and saving to: /o/hint.png"], .ok shotResult⟩

/-- Outputs for the retention-sweep scenario: three non-screenshot artifacts
(any age), one screenshot older than the cutoff, one screenshot at the
cutoff instant (inside the window). -/
def sweepRows : List Output :=
  [⟨"o1", "a1", "n1", "text", "d", 999999⟩,
   ⟨"o2", "a1", "n2", "json", "d", 1000000⟩,
   ⟨"o3", "a1", "n3", "text", "d", 5⟩,
   ⟨"o4", "a1", "n4", "screenshot", "d", 999999⟩,
   ⟨"o5", "a1", "n5", "screenshot", "d", 1000000⟩]

/-- Two artifacts for the pagination samples. -/
def pageRows : List Output :=
  [⟨"p1", "a1", "n1", "screenshot", "d", 1⟩,
   ⟨"p2", "a1", "n2", "screenshot", "d", 2⟩]

/-- A stream whose only complete event arrives after the client timeout. -/
def lateFrames : List (Nat × SEvent) :=
  [(150000, .complete false ("Error: boom") (some "boom") none none none)]

def simEnvW : ClientSimEnv := ⟨"2026-01-01T00-00-00-000Z", "9.42"⟩

def storeFile1 : OutputFile := ⟨"f1", "a1", "one", "screenshot", "d", 100⟩

def storeFile2 : OutputFile := ⟨"f2", "a1", "two", "text", "d", 200⟩

def storeState0 : OutputStoreState := ⟨[storeFile1], [], none, 0, 1, true, false⟩

/-! ## Helper lemmas -/

theorem getById_updateStatus (rows : List Automation) (id st iso : String) :
    AutomationModel.getById (AutomationModel.updateStatus rows id st iso) id
      = (AutomationModel.getById rows id).map
          (fun a => { a with status := st, updatedAt := iso }) := by
  induction rows with
  | nil => rfl
  | cons a rest ih =>
    simp only [AutomationModel.getById, AutomationModel.updateStatus, List.map_cons,
      List.find?_cons] at ih ⊢
    by_cases h : a.id = id
    · simp [h]
    · simpa [h] using ih

theorem deleteById_fst (rows : List Output) (id : String) :
    (OutputModel.deleteById rows id).1 = rows.filter (fun o => o.id ≠ id) := by
  unfold OutputModel.deleteById
  cases h : OutputModel.getById rows id with
  | none =>
    have hall : ∀ o ∈ rows, ¬ (o.id = id) := by
      intro o ho
      simpa using List.find?_eq_none.mp h o ho
    exact (List.filter_eq_self.mpr (fun o ho => by simpa using hall o ho)).symm
  | some _ => rfl

theorem cleanup_fold_spec (ids : List String) (rows : List Output) (n : Nat) :
    (ids.foldl (fun acc id =>
        let r := OutputModel.deleteById acc.1 id
        (r.1, acc.2 + 1)) (rows, n))
      = (rows.filter (fun o => !ids.contains o.id), n + ids.length) := by
  induction ids generalizing rows n with
  | nil => simp
  | cons a ids ih =>
    simp only [List.foldl_cons]
    rw [ih, deleteById_fst, List.filter_filter]
    refine Prod.ext ?_ ?_
    · refine List.filter_congr ?_
      intro o _
      simp [List.contains_cons, Bool.not_or, Bool.and_comm]
    · simp [Nat.add_assoc, Nat.add_comm 1 ids.length]

theorem sorted_sortByTimestampDesc (rows : List Output) :
    (OutputModel.sortByTimestampDesc rows).Pairwise
      (fun a b => b.timestamp ≤ a.timestamp) := by
  unfold OutputModel.sortByTimestampDesc
  refine List.Pairwise.imp ?_ (List.sorted_mergeSort ?_ ?_ rows)
  · intro a b h
    simpa using h
  · intro a b c h1 h2
    simp only [decide_eq_true_eq] at *
    omega
  · intro a b
    simp only [Bool.or_eq_true, decide_eq_true_eq]
    omega

theorem sortByTimestampDesc_length (rows : List Output) :
    (OutputModel.sortByTimestampDesc rows).length = rows.length := by
  unfold OutputModel.sortByTimestampDesc
  exact List.length_mergeSort rows

theorem cleanupOldOutputs_eq (rows : List Output) (now days : Nat) :
    OutputModel.cleanupOldOutputs rows now days
      = (rows.filter (fun o =>
            !((((rows.filter (fun o => o.timestamp < now - days * msPerDay)) ++
                rows.filter (fun o => o.type ≠ "screenshot")).map
                  (fun o => o.id)).dedup.contains o.id)),
         { deleted := (((rows.filter (fun o => o.timestamp < now - days * msPerDay)) ++
               rows.filter (fun o => o.type ≠ "screenshot")).map
                 (fun o => o.id)).dedup.length,
           oldOutputsRemoved :=
             (rows.filter (fun o => o.timestamp < now - days * msPerDay)).length,
           nonScreenshotsRemoved :=
             (rows.filter (fun o => o.type ≠ "screenshot")).length }) := by
  unfold OutputModel.cleanupOldOutputs
  simp only [cleanup_fold_spec, Nat.zero_add]

/-- Membership in the deduplicated id list of the sweep. -/
theorem mem_sweep_ids (rows : List Output) (c : Nat) (x : String) :
    (x ∈ (((rows.filter (fun o => o.timestamp < c)) ++
        rows.filter (fun o => o.type ≠ "screenshot")).map (fun o => o.id)).dedup)
      ↔ ∃ o ∈ rows, (o.timestamp < c ∨ o.type ≠ "screenshot") ∧ o.id = x := by
  simp only [List.mem_dedup, List.mem_map, List.mem_append, List.mem_filter,
    decide_eq_true_eq]
  constructor
  · rintro ⟨o, ho | ho, rfl⟩
    · exact ⟨o, ho.1, Or.inl ho.2, rfl⟩
    · exact ⟨o, ho.1, Or.inr ho.2, rfl⟩
  · rintro ⟨o, ho, hc | hc, rfl⟩
    · exact ⟨o, Or.inl ⟨ho, hc⟩, rfl⟩
    · exact ⟨o, Or.inr ⟨ho, hc⟩, rfl⟩

/-! ## Claims -/

/-- C4: for every retention window `D` and every artifact store state with
distinct row ids (the `outputs` primary key), after `cleanupOldOutputs(D)`
an artifact has been deleted iff it was older than `D` days or its type was
not `"screenshot"` — so every screenshot artifact within the window
survives — and the returned value reports the per-category counts
`{deleted, oldOutputsRemoved, nonScreenshotsRemoved}`. -/
theorem cleanup_deletes_iff (rows : List Output) (now days : Nat)
    (hids : (rows.map (fun o => o.id)).Nodup) :
    (∀ o ∈ rows,
        o ∈ (OutputModel.cleanupOldOutputs rows now days).1 ↔
          ¬(o.timestamp < now - days * msPerDay ∨ o.type ≠ "screenshot")) ∧
    (OutputModel.cleanupOldOutputs rows now days).2.oldOutputsRemoved
        = (rows.filter (fun o => o.timestamp < now - days * msPerDay)).length ∧
    (OutputModel.cleanupOldOutputs rows now days).2.nonScreenshotsRemoved
        = (rows.filter (fun o => o.type ≠ "screenshot")).length ∧
    (OutputModel.cleanupOldOutputs rows now days).2.deleted
        = (rows.filter (fun o =>
            o.timestamp < now - days * msPerDay ∨ o.type ≠ "screenshot")).length := by
  have hinj := List.inj_on_of_nodup_map hids
  rw [cleanupOldOutputs_eq]
  refine ⟨?_, rfl, rfl, ?_⟩
  · intro o ho
    constructor
    · intro hmem hcond
      have hmem2 := (List.mem_filter.mp hmem).2
      simp at hmem2
      rcases hcond with ht | hty
      · exact hmem2.1 o ho ht rfl
      · exact hmem2.2 o ho hty rfl
    · intro hncond
      obtain ⟨hnt, hty⟩ : ¬(o.timestamp < now - days * msPerDay) ∧ o.type = "screenshot" := by
        push_neg at hncond
        exact ⟨Nat.not_lt.mpr hncond.1, hncond.2⟩
      refine List.mem_filter.mpr ⟨ho, ?_⟩
      simp
      constructor
      · intro x hx ht hid
        have heq := hinj hx ho hid
        rw [heq] at ht
        exact hnt ht
      · intro x hx hxty hid
        have heq := hinj hx ho hid
        rw [heq] at hxty
        exact hxty hty
  · have nd1 : ((((rows.filter (fun o => o.timestamp < now - days * msPerDay)) ++
        rows.filter (fun o => o.type ≠ "screenshot")).map (fun o => o.id)).dedup).Nodup :=
      List.nodup_dedup _
    have nd2 : ((rows.filter (fun o =>
        o.timestamp < now - days * msPerDay ∨ o.type ≠ "screenshot")).map
          (fun o => o.id)).Nodup :=
      List.Nodup.sublist (List.Sublist.map _ (List.filter_sublist rows)) hids
    have hperm := (List.perm_ext_iff_of_nodup nd1 nd2).mpr ?_
    · calc _ = ((rows.filter (fun o =>
            o.timestamp < now - days * msPerDay ∨ o.type ≠ "screenshot")).map
              (fun o => o.id)).length := hperm.length_eq
        _ = _ := List.length_map _ _
    · intro x
      rw [mem_sweep_ids]
      simp only [List.mem_map, List.mem_filter, decide_eq_true_eq]
      constructor
      · rintro ⟨o, ho, hc, rfl⟩
        exact ⟨o, ⟨ho, hc⟩, rfl⟩
      · rintro ⟨o, ⟨ho, hc⟩, rfl⟩
        exact ⟨o, ho, hc, rfl⟩

/-- C4 witness: Scenario C — three non-screenshot artifacts, one screenshot
older than the window, one screenshot inside the window; `sweep(days=0)`
removes exactly the first four and reports `deleted = 4`. -/
theorem cleanup_deletes_iff_witness :
    ((sweepRows.map (fun o => o.id)).Nodup) ∧
    (OutputModel.cleanupOldOutputs sweepRows 1000000 0).2.deleted = 4 ∧
    (∀ o ∈ sweepRows,
        o ∈ (OutputModel.cleanupOldOutputs sweepRows 1000000 0).1 ↔
          ¬(o.timestamp < 1000000 - 0 * msPerDay ∨ o.type ≠ "screenshot")) :=
  ⟨by decide,
   ((cleanup_deletes_iff sweepRows 1000000 0 (by decide)).2.2.2).trans (by decide),
   (cleanup_deletes_iff sweepRows 1000000 0 (by decide)).1⟩

/-- C5 (amended): the paginated artifact read returns items ordered by
timestamp descending starting at offset `(page−1)×limit+skip`; page 1
(limit L) merged with page 2 (limit L, skip 0) is the contiguous,
timestamp-descending prefix of length 2L (so the two pages are disjoint
segments of it); and a request whose offset is past the total count
returns an empty files list, with `hasMore = false` provided
`skip ≤ limit` (`hasMore` is computed as `page*limit < total`). -/
theorem outputs_pagination_spec (rows : List Output) (page limit skip L : Nat)
    (hpage : 1 ≤ page) (hskip : skip ≤ limit) :
    ((outputsHandler rows page limit skip).files
        = ((OutputModel.sortByTimestampDesc rows).drop
            ((page - 1) * limit + skip)).take limit
      ∧ (outputsHandler rows page limit skip).files.Pairwise
          (fun a b => b.timestamp ≤ a.timestamp))
    ∧ ((outputsHandler rows 1 L 0).files ++ (outputsHandler rows 2 L 0).files
        = (OutputModel.sortByTimestampDesc rows).take (2 * L)
      ∧ ((outputsHandler rows 1 L 0).files ++
          (outputsHandler rows 2 L 0).files).Pairwise
          (fun a b => b.timestamp ≤ a.timestamp))
    ∧ (rows.length ≤ (page - 1) * limit + skip →
        (outputsHandler rows page limit skip).files = []
          ∧ (outputsHandler rows page limit skip).hasMore = false) := by
  have hsorted := sorted_sortByTimestampDesc rows
  have hmerge : (outputsHandler rows 1 L 0).files ++ (outputsHandler rows 2 L 0).files
      = (OutputModel.sortByTimestampDesc rows).take (2 * L) := by
    simp only [outputsHandler, OutputModel.getAll, Nat.zero_mul, Nat.one_mul,
      Nat.add_zero, Nat.sub_self, List.drop_zero]
    have h21 : (2 - 1) * L = L := by omega
    rw [h21, two_mul, List.take_add]
  refine ⟨⟨rfl, ?_⟩, ⟨hmerge, ?_⟩, ?_⟩
  · exact List.Pairwise.sublist
      ((List.take_sublist _ _).trans (List.drop_sublist _ _)) hsorted
  · rw [hmerge]
    exact List.Pairwise.sublist (List.take_sublist _ _) hsorted
  · intro hpast
    have hnil : (OutputModel.sortByTimestampDesc rows).drop
        ((page - 1) * limit + skip) = [] := by
      apply List.drop_eq_nil_of_le
      rw [sortByTimestampDesc_length]
      exact hpast
    constructor
    · show ((OutputModel.sortByTimestampDesc rows).drop
          ((page - 1) * limit + skip)).take limit = []
      rw [hnil, List.take_nil]
    · obtain ⟨p, rfl⟩ := Nat.exists_eq_add_of_le hpage
      have hp1 : 1 + p - 1 = p := by omega
      rw [hp1] at hpast
      have hm : (1 + p) * limit = p * limit + limit := by ring
      simp only [outputsHandler, OutputModel.getAll, decide_eq_false_iff_not]
      omega

/-- C5 witness: two artifacts, page 2, limit 1, skip 1 — the offset (2) is
past the total (2): the page is empty and `hasMore` is false. -/
theorem outputs_pagination_spec_witness :
    (1 ≤ 2 ∧ 1 ≤ 1 ∧ pageRows.length ≤ (2 - 1) * 1 + 1) ∧
    (outputsHandler pageRows 2 1 1).files = [] ∧
    (outputsHandler pageRows 2 1 1).hasMore = false :=
  ⟨by decide,
   (outputs_pagination_spec pageRows 2 1 1 0 (by decide) (by decide)).2.2 (by decide)⟩

/-- C5 counterexample: with two artifacts, page 1, limit 1 and skip 3, the
offset (3) is past the total (2) and the returned page is empty, yet
`hasMore` is `true` (`page*limit = 1 < 2 = total`) — refuting the claim
that such a request always reports `hasMore = false`. -/
theorem outputs_pagination_counterexample :
    pageRows.length ≤ (1 - 1) * 1 + 3 ∧
    (outputsHandler pageRows 1 1 3).files = [] ∧
    (outputsHandler pageRows 1 1 3).hasMore = true := by
  have hnil : (OutputModel.sortByTimestampDesc pageRows).drop ((1 - 1) * 1 + 3) = [] :=
    List.drop_eq_nil_of_le (by rw [sortByTimestampDesc_length]; decide)
  refine ⟨by decide, ?_, by decide⟩
  show ((OutputModel.sortByTimestampDesc pageRows).drop ((1 - 1) * 1 + 3)).take 1 = []
  rw [hnil]
  rfl

/-- C1: for every accepted run submission (non-empty script) the claim says
the stream always emits `status(running) · log* · complete` and is then
closed.  The code violates this: when the script resolves a truthy result
and the automation id is missing from the database, the guard at
`server.cjs` line 222–229 does a bare `return` — the stream has emitted its
status and log events but no complete event, and `res.end()` is never
reached, so the stream is left open. -/
theorem run_missing_automation_leaves_stream_open :
    ((runAutomationHandler dbEmpty ("a1") ("Auto") ("return run();")
        execTruthy {} envW).events.filter SEvent.isComplete = []) ∧
    ((runAutomationHandler dbEmpty ("a1") ("Auto") ("return run();")
        execTruthy {} envW).streamClosed = false) ∧
    ((runAutomationHandler dbEmpty ("a1") ("Auto") ("return run();")
        execTruthy {} envW).events
      = [.status ("running") ("Starting automation..."), .log ("hi")]) := by
  decide

/-- C2: the claim says every terminated run creates exactly one LogEntry.
The code violates this on the same early-return path: a script that
resolves a truthy value under a missing automation id terminates, yet no
LogEntry is created (and no complete event is emitted). -/
theorem run_missing_automation_creates_no_log_entry :
    (((runAutomationHandler dbEmpty ("a1") ("Auto") ("return run();")
        execTruthy {} envW).dbOr dbEmpty).logs = []) ∧
    ((runAutomationHandler dbEmpty ("a1") ("Auto") ("return run();")
        execTruthy {} envW).events.filter SEvent.isComplete = []) ∧
    execTruthy.outcome = .ok { truthy := true } := by
  decide

theorem runCatchBlock_congr (db : Db) (a : List Automation) (o1 o2 : List Output)
    (id : String) (ev : List SEvent) (ll : List String) (m : String)
    (f1 f2 : Faults) (hf : f1.logCreateFailsOnFailure = f2.logCreateFailsOnFailure)
    (env : RunEnv) :
    (runCatchBlock db a o1 id ev ll m f1 env).events
        = (runCatchBlock db a o2 id ev ll m f2 env).events ∧
    (runCatchBlock db a o1 id ev ll m f1 env).streamClosed
        = (runCatchBlock db a o2 id ev ll m f2 env).streamClosed ∧
    ((runCatchBlock db a o1 id ev ll m f1 env).dbOr db).automations
        = ((runCatchBlock db a o2 id ev ll m f2 env).dbOr db).automations ∧
    ((runCatchBlock db a o1 id ev ll m f1 env).dbOr db).logs
        = ((runCatchBlock db a o2 id ev ll m f2 env).dbOr db).logs := by
  unfold runCatchBlock
  dsimp only
  cases AutomationModel.getById
      (AutomationModel.updateStatus a id ("failed") env.nowISO) id with
  | none => exact ⟨rfl, rfl, rfl, rfl⟩
  | some au =>
    rw [hf]
    cases hb : f2.logCreateFailsOnFailure <;> exact ⟨rfl, rfl, rfl, rfl⟩

theorem runSuccessCompletion_congr (db : Db) (a : List Automation)
    (o1 o2 : List Output) (id : String) (ev : List SEvent) (ll : List String)
    (out : String) (result : JSResult) (hint2 : Option String) (et : String)
    (f1 f2 : Faults)
    (hlcs : f1.logCreateFailsOnSuccess = f2.logCreateFailsOnSuccess)
    (hlcf : f1.logCreateFailsOnFailure = f2.logCreateFailsOnFailure)
    (hmsg : f1.logCreateErrMsg = f2.logCreateErrMsg) (env : RunEnv) :
    (runSuccessCompletion db a o1 id ev ll out result hint2 et f1 env).events
        = (runSuccessCompletion db a o2 id ev ll out result hint2 et f2 env).events ∧
    (runSuccessCompletion db a o1 id ev ll out result hint2 et f1 env).streamClosed
        = (runSuccessCompletion db a o2 id ev ll out result hint2 et f2 env).streamClosed ∧
    ((runSuccessCompletion db a o1 id ev ll out result hint2 et f1 env).dbOr db).automations
        = ((runSuccessCompletion db a o2 id ev ll out result hint2 et f2 env).dbOr db).automations ∧
    ((runSuccessCompletion db a o1 id ev ll out result hint2 et f1 env).dbOr db).logs
        = ((runSuccessCompletion db a o2 id ev ll out result hint2 et f2 env).dbOr db).logs := by
  unfold runSuccessCompletion
  dsimp only
  cases AutomationModel.getById
      (AutomationModel.updateStatus a id ("completed") env.nowISO) id with
  | none => exact ⟨rfl, rfl, rfl, rfl⟩
  | some au =>
    rw [hlcs, hmsg]
    cases hb : f2.logCreateFailsOnSuccess with
    | true =>
      simp only [if_true]
      exact runCatchBlock_congr db _ o1 o2 id ev ll f2.logCreateErrMsg f1 f2 hlcf env
    | false => exact ⟨rfl, rfl, rfl, rfl⟩

/-- C3 (amended): an error thrown while persisting an ARTIFACT is caught and
logged and does not abort the run or change its success/failure outcome —
the emitted events (including the terminal event's success field), the
stream closure, the Automation rows and the log rows are identical to a run
in which artifact persistence succeeded.  (An error in persisting the
LogEntry itself is NOT caught locally and diverts the run to the failure
path — see the counterexample.) -/
theorem artifact_write_error_never_flips_outcome (db : Db)
    (id name script : String) (exec : ScriptExec) (lcs lcf : Bool)
    (msg : String) (env : RunEnv) :
    ((runAutomationHandler db id name script exec ⟨true, lcs, lcf, msg⟩ env).events
        = (runAutomationHandler db id name script exec ⟨false, lcs, lcf, msg⟩ env).events) ∧
    ((runAutomationHandler db id name script exec ⟨true, lcs, lcf, msg⟩ env).streamClosed
        = (runAutomationHandler db id name script exec ⟨false, lcs, lcf, msg⟩ env).streamClosed) ∧
    (((runAutomationHandler db id name script exec ⟨true, lcs, lcf, msg⟩ env).dbOr db).automations
        = ((runAutomationHandler db id name script exec ⟨false, lcs, lcf, msg⟩ env).dbOr db).automations) ∧
    (((runAutomationHandler db id name script exec ⟨true, lcs, lcf, msg⟩ env).dbOr db).logs
        = ((runAutomationHandler db id name script exec ⟨false, lcs, lcf, msg⟩ env).dbOr db).logs) := by
  unfold runAutomationHandler
  dsimp only
  by_cases hs : script = ""
  · simp [hs]
  · simp only [hs, if_false]
    cases hx : exec.outcome with
    | error e =>
      exact runCatchBlock_congr db _ db.outputs db.outputs id _ exec.logLines e
        ⟨true, lcs, lcf, msg⟩ ⟨false, lcs, lcf, msg⟩ rfl env
    | ok result =>
      by_cases hc : result.truthy ∧ (AutomationModel.getById
          (AutomationModel.updateStatus db.automations id ("running") env.nowISO) id).isNone
      · simp [hc]
      · simp only [hc, if_false]
        exact runSuccessCompletion_congr db _ _ _ id _ exec.logLines _ result _ _
          ⟨true, lcs, lcf, msg⟩ ⟨false, lcs, lcf, msg⟩ rfl rfl rfl env

/-- C3 counterexample: with the automation present and a script that
resolves successfully, injecting a failure into the success-path
`LogModel.create` flips the terminal event to `success=false` and the
automation's final status to `failed`, while the identical run without the
persistence fault reports `success=true` and status `completed` — refuting
the claim for log-entry persistence errors. -/
theorem log_write_error_flips_outcome_counterexample :
    completeSuccesses (runAutomationHandler dbOne ("a1") ("Auto")
        ("return run();") execTruthy ⟨false, true, false, "disk full"⟩ envW).events
      = [false] ∧
    finalAutomationStatus dbOne (runAutomationHandler dbOne ("a1") ("Auto")
        ("return run();") execTruthy ⟨false, true, false, "disk full"⟩ envW) ("a1")
      = some ("failed") ∧
    completeSuccesses (runAutomationHandler dbOne ("a1") ("Auto")
        ("return run();") execTruthy {} envW).events = [true] ∧
    finalAutomationStatus dbOne (runAutomationHandler dbOne ("a1") ("Auto")
        ("return run();") execTruthy {} envW) ("a1") = some ("completed") := by
  decide

theorem completeSuccesses_status_log_append (st m : String) (lines : List String)
    (tail : List SEvent) :
    completeSuccesses (SEvent.status st m :: lines.map SEvent.log ++ tail)
      = completeSuccesses tail := by
  unfold completeSuccesses
  simp only [List.filterMap_cons, List.filterMap_append, List.filterMap_map]
  induction lines with
  | nil => simp
  | cons l ls ih => simp

theorem completeScreenshotFilenames_status_log_append (st m : String)
    (lines : List String) (tail : List SEvent) :
    completeScreenshotFilenames (SEvent.status st m :: lines.map SEvent.log ++ tail)
      = completeScreenshotFilenames tail := by
  unfold completeScreenshotFilenames
  simp only [List.filterMap_cons, List.filterMap_append, List.filterMap_map]
  induction lines with
  | nil => simp
  | cons l ls ih => simp

theorem saveOutput_fresh (rows : List Output) (aid data nm ty : String)
    (nowMs : Nat) (hfresh : ∀ o ∈ rows, o.id ≠ toString nowMs) :
    OutputModel.saveOutput rows aid data nm ty nowMs false
      = (rows ++ [⟨toString nowMs, aid, nm, ty, data, nowMs⟩],
         some ⟨toString nowMs, aid, nm, ty, data, nowMs⟩) := by
  unfold OutputModel.saveOutput OutputModel.create
  have hany : rows.any (fun o => o.id = toString nowMs) = false := by
    rw [List.any_eq_false]
    intro o ho
    simpa using hfresh o ho
  simp [hany]

theorem saveScreenshotBlock_fresh (automation : Automation) (result : JSResult)
    (outs : List Output) (id : String) (env : RunEnv)
    (hfresh : ∀ o ∈ outs, o.id ≠ toString env.nowMs) :
    ∃ o : Output, saveScreenshotBlock automation result outs id env false
        = outs ++ [o] ∧ o.type = "screenshot" ∧ o.automationId = id := by
  unfold saveScreenshotBlock
  dsimp only
  rw [saveOutput_fresh _ _ _ _ _ _ hfresh]
  exact ⟨_, rfl, rfl, rfl⟩

/-- C6: for every successful run (non-empty script, script resolves, the
automation row exists, no persistence fault is injected, and the
server-assigned artifact id `Date.now()` is fresh), an OutputArtifact is
persisted iff the resolved result carries a truthy screenshot payload;
that artifact has type `"screenshot"` and references the automation; no
other artifact is persisted; and the run's terminal event reports
`success = true`. -/
theorem successful_run_persists_only_screenshot (db : Db)
    (id name script : String) (exec : ScriptExec) (result : JSResult)
    (a : Automation) (env : RunEnv)
    (hscript : script ≠ "") (hout : exec.outcome = .ok result)
    (ha : AutomationModel.getById db.automations id = some a)
    (hfresh : ∀ o ∈ db.outputs, o.id ≠ toString env.nowMs) :
    completeSuccesses (runAutomationHandler db id name script exec {} env).events
        = [true] ∧
    (if result.truthy ∧ ScreenshotVal.isTruthy result.screenshot then
        ∃ o : Output,
          ((runAutomationHandler db id name script exec {} env).dbOr db).outputs
              = db.outputs ++ [o] ∧ o.type = "screenshot" ∧ o.automationId = id
      else ((runAutomationHandler db id name script exec {} env).dbOr db).outputs
              = db.outputs) := by
  have ha1 : AutomationModel.getById
      (AutomationModel.updateStatus db.automations id ("running") env.nowISO) id
      = some { a with status := "running", updatedAt := env.nowISO } := by
    rw [getById_updateStatus, ha]
    rfl
  have ha2 : AutomationModel.getById (AutomationModel.updateStatus
      (AutomationModel.updateStatus db.automations id ("running") env.nowISO)
      id ("completed") env.nowISO) id
      = some { a with status := "completed", updatedAt := env.nowISO } := by
    rw [getById_updateStatus, ha1]
    rfl
  unfold runAutomationHandler
  dsimp only
  rw [if_neg hscript]
  simp only [hout]
  rw [if_neg (by simp [ha1])]
  unfold runSuccessCompletion
  dsimp only
  rw [ha2]
  dsimp only
  rw [if_neg (by decide : ¬ (false = true))]
  dsimp only [RunResponse.events, RunResponse.dbOr]
  constructor
  · rw [completeSuccesses_status_log_append]
    rfl
  · by_cases hshot : result.truthy ∧ ScreenshotVal.isTruthy result.screenshot
    · rw [if_pos hshot, if_pos hshot, ha1]
      dsimp only
      obtain ⟨o, ho, hty, haid⟩ := saveScreenshotBlock_fresh
        { a with status := "running", updatedAt := env.nowISO } result db.outputs
        id env hfresh
      exact ⟨o, by rw [ho], hty, haid⟩
    · rw [if_neg hshot, if_neg hshot]

/-- C6 witness: a run of `execShot` against `dbOne` completes successfully
and persists exactly one artifact, of type screenshot, for automation a1. -/
theorem successful_run_persists_only_screenshot_witness :
    completeSuccesses (runAutomationHandler dbOne ("a1") ("Auto")
        ("return run();") execShot {} envW).events = [true] ∧
    (if shotResult.truthy ∧ ScreenshotVal.isTruthy shotResult.screenshot then
        ∃ o : Output,
          ((runAutomationHandler dbOne ("a1") ("Auto") ("return run();")
              execShot {} envW).dbOr dbOne).outputs
            = dbOne.outputs ++ [o] ∧ o.type = "screenshot" ∧ o.automationId = "a1"
      else ((runAutomationHandler dbOne ("a1") ("Auto") ("return run();")
              execShot {} envW).dbOr dbOne).outputs = dbOne.outputs) :=
  successful_run_persists_only_screenshot dbOne ("a1") ("Auto") ("return run();")
    execShot shotResult sampleAutomation envW (by decide) (by decide) (by decide)
    (by decide)

/-- C7 counterexample: in a run where the log scrape produced the hint
`hint.png` AND the result carries `screenshotPath = "/o/real.png"` (basename
`real.png`), the terminal complete event reports `hint.png` — the
log-scraped hint DOES override the result payload, refuting the claim. -/
theorem log_hint_counterexample :
    completeScreenshotFilenames (runAutomationHandler dbOne ("a1") ("Auto")
        ("return run();") execShot {} envW).events = [some (some "hint.png")] ∧
    shotResult.screenshotPath = some "/o/real.png" ∧
    lastBasename "/o/real.png" = some "real.png" ∧
    ("hint.png" : String) ≠ "real.png" := by
  decide

/-- C7 (amended): whenever a screenshot filename hint was scraped from a log
line, the terminal complete event reports that hint; the result payload's
`screenshotPath` never overrides it (the code consults the result only when
no hint was scraped). -/
theorem log_hint_wins_over_result_path (db : Db) (id name script : String)
    (exec : ScriptExec) (result : JSResult) (a : Automation) (env : RunEnv)
    (f : String)
    (hscript : script ≠ "") (hout : exec.outcome = .ok result)
    (ha : AutomationModel.getById db.automations id = some a)
    (hhint : exec.logLines.foldl logCaptureScreenshot none = some f) :
    completeScreenshotFilenames
        (runAutomationHandler db id name script exec {} env).events
      = [some (some f)] := by
  have ha1 : AutomationModel.getById
      (AutomationModel.updateStatus db.automations id ("running") env.nowISO) id
      = some { a with status := "running", updatedAt := env.nowISO } := by
    rw [getById_updateStatus, ha]
    rfl
  have ha2 : AutomationModel.getById (AutomationModel.updateStatus
      (AutomationModel.updateStatus db.automations id ("running") env.nowISO)
      id ("completed") env.nowISO) id
      = some { a with status := "completed", updatedAt := env.nowISO } := by
    rw [getById_updateStatus, ha1]
    rfl
  unfold runAutomationHandler
  dsimp only
  rw [if_neg hscript]
  simp only [hout, hhint]
  rw [if_neg (show ¬(result.truthy = true ∧ optStrTruthy result.screenshotPath = true
      ∧ (some f : Option String) = none) from by simp)]
  rw [if_neg (by simp [ha1])]
  unfold runSuccessCompletion
  dsimp only
  rw [ha2]
  dsimp only
  rw [if_neg (by decide : ¬ (false = true))]
  dsimp only [RunResponse.events]
  rw [completeScreenshotFilenames_status_log_append]
  rfl

/-- C7 witness: the `execShot` run reports the scraped hint `hint.png`. -/
theorem log_hint_wins_over_result_path_witness :
    completeScreenshotFilenames (runAutomationHandler dbOne ("a1") ("Auto")
        ("return run();") execShot {} envW).events = [some (some "hint.png")] :=
  log_hint_wins_over_result_path dbOne ("a1") ("Auto") ("return run();")
    execShot shotResult sampleAutomation envW ("hint.png") (by decide) (by decide)
    (by decide) (by decide)

/-- C8 counterexample: when the stream's only complete event arrives at
150 s — after the 120 s timeout — the run does NOT surface as a client-side
failure: the rejection is caught by the `serverError` catch, the simulated
runner executes, and the caller sees `success = true` (even though the
server had reported a failure). -/
theorem client_timeout_counterexample :
    (∀ p ∈ firstCompleteFrame lateFrames, CLIENT_TIMEOUT_MS ≤ p.1) ∧
    (clientRunResult lateFrames 150000 simEnvW).success = true := by
  constructor
  · intro p hp
    cases hp
    decide
  · rfl

/-- C8 (amended): the client resolves its completion promise on the first
complete event of the stream, racing a fixed 120-second timeout; when the
timeout elapses first (no complete event arrives before 120 s), the
rejection is caught and the client falls back to the local simulated
runner, whose result — always `success = true` — is what surfaces to the
caller; nothing is sent to the server, so server-side execution is not
canceled. -/
theorem client_timeout_falls_back_to_simulation
    (frames : List (Nat × SEvent)) (streamEndMs : Nat) (sim : ClientSimEnv)
    (hlate : ∀ p ∈ firstCompleteFrame frames, CLIENT_TIMEOUT_MS ≤ p.1) :
    clientRunResult frames streamEndMs sim = runAutomationSim sim ∧
    (clientRunResult frames streamEndMs sim).success = true ∧
    (runAutomationSim sim).success = true := by
  have hres : clientRunResult frames streamEndMs sim = runAutomationSim sim := by
    unfold clientRunResult
    cases hfc : firstCompleteFrame frames with
    | none => rfl
    | some p =>
      have := hlate p (by rw [hfc]; exact rfl)
      obtain ⟨t, e⟩ := p
      dsimp only
      rw [if_neg (by simp only [] at this; omega : ¬ t < CLIENT_TIMEOUT_MS)]
  exact ⟨hres, by rw [hres]; rfl, rfl⟩

/-- C8 witness: the late-complete stream falls back to the simulation. -/
theorem client_timeout_falls_back_witness :
    clientRunResult lateFrames 150000 simEnvW = runAutomationSim simEnvW ∧
    (clientRunResult lateFrames 150000 simEnvW).success = true ∧
    (runAutomationSim simEnvW).success = true :=
  client_timeout_falls_back_to_simulation lateFrames 150000 simEnvW
    (by intro p hp; cases hp; decide)

/-- C9 counterexample: with the grouped view cached at t=0 over the single
file `storeFile1`, a pagination append of `storeFile2` at some later point
does not invalidate the cache, so a read at t=2 (within the 3 s TTL)
returns the pre-append grouping — which differs from the grouping of the
current list. -/
theorem grouped_cache_stale_after_append_counterexample :
    ((outputsByTypeRead
        (loadMoreOutputs ((outputsByTypeRead storeState0 0).2) [storeFile2]) 2).1
      = [("screenshot", [storeFile1])]) ∧
    ([("screenshot", [storeFile1])]
      = computeGrouping storeState0.priorityOutputFiles storeState0.outputFiles) ∧
    ((outputsByTypeRead
        (loadMoreOutputs ((outputsByTypeRead storeState0 0).2) [storeFile2]) 2).1
      ≠ computeGrouping
          (loadMoreOutputs ((outputsByTypeRead storeState0 0).2)
            [storeFile2]).priorityOutputFiles
          (loadMoreOutputs ((outputsByTypeRead storeState0 0).2)
            [storeFile2]).outputFiles) := by
  have hg1 : computeGrouping ([] : List OutputFile) [storeFile1]
      = [("screenshot", [storeFile1])] := by
    simp [computeGrouping, pushGroup, fileTypeKey, storeFile1]
  have hst1 : (outputsByTypeRead storeState0 0).2
      = ⟨[storeFile1], [], some [("screenshot", [storeFile1])], 0, 1, true, false⟩ := by
    simp [outputsByTypeRead, storeState0, hg1]
  have hst2 : loadMoreOutputs
      (⟨[storeFile1], [], some [("screenshot", [storeFile1])], 0, 1, true, false⟩ :
        OutputStoreState) [storeFile2]
      = ⟨[storeFile1, storeFile2], [], some [("screenshot", [storeFile1])], 0, 1,
          false, false⟩ := by
    decide
  have hread2 : (outputsByTypeRead
      (⟨[storeFile1, storeFile2], [], some [("screenshot", [storeFile1])], 0, 1,
          false, false⟩ : OutputStoreState) 2).1
      = [("screenshot", [storeFile1])] := by
    rfl
  have hlen : (computeGrouping ([] : List OutputFile)
      [storeFile1, storeFile2]).length = 2 := by
    decide
  refine ⟨?_, ?_, ?_⟩
  · rw [hst1, hst2, hread2]
  · rw [← hg1]
    rfl
  · rw [hst1, hst2, hread2]
    dsimp only
    intro hcontra
    have hlencontra := congrArg List.length hcontra
    rw [hlen] at hlencontra
    simp at hlencontra

/-- C9 (amended): the grouped-by-type cache is invalidated by delete and by
reset — the next read after either recomputes from the current lists — but
a pagination append leaves the cache untouched, so a read within the TTL
after an append can still return the pre-append grouping. -/
theorem grouped_cache_invalidation (st : OutputStoreState) (id : String)
    (now : Nat) (newOutputs : List OutputFile) :
    (deleteOutputLocal st id).cacheData = none ∧
    (resetOutputPagination st).cacheData = none ∧
    (outputsByTypeRead (deleteOutputLocal st id) now).1
      = computeGrouping (deleteOutputLocal st id).priorityOutputFiles
          (deleteOutputLocal st id).outputFiles ∧
    (outputsByTypeRead (resetOutputPagination st) now).1
      = computeGrouping (resetOutputPagination st).priorityOutputFiles
          (resetOutputPagination st).outputFiles ∧
    (loadMoreOutputs st newOutputs).cacheData = st.cacheData := by
  refine ⟨rfl, rfl, rfl, rfl, ?_⟩
  unfold loadMoreOutputs
  dsimp only
  split
  · rfl
  · split <;> split <;> rfl

/-- C10 counterexample: the claim says `deleteOutputFile` resolves to
`true` whenever the request yields any response object.  In fact it
resolves to `false` even when the DELETE returns the fully successful body
`{success: true, data: {id}}`, and likewise on a 404 whose fetchAPI
fallback is an object — the post-response `outputsByType.update` call
throws a TypeError (a derived store has no `update` method) that the
function's catch turns into `false`.  The claim's parenthetical about the
fallback values is also wrong for `/settings`, whose failure fallback is
the mock settings object rather than an error-marker object. -/
theorem delete_always_false_counterexample :
    (deleteOutputFile storeState0 ("f1")
        (.ok (.jobj [("success", .jbool true),
          ("data", .jobj [("id", .jstr "f1")])]))).2 = false ∧
    ((fetchAPIModel [] 0 ("/outputs/f1") false
        (.httpError 404 ("not found"))).1).typeofStr = "object" ∧
    (deleteOutputFile storeState0 ("f1") (.httpError 404 ("not found"))).2
      = false ∧
    (fetchAPIModel [] 0 ("/settings") true (.networkError ("connection refused"))).1
      = .jobj [("notificationsEnabled", .jbool true), ("darkTheme", .jbool true),
          ("keepOutputDays", .jnum 7)] :=
  ⟨rfl, rfl, rfl, rfl⟩

/-- C10 (amended): for every artifact id, the client's `deleteOutputFile`
ALWAYS resolves to `false` — never `true` — while keeping the optimistic
local removal (both lists filtered, grouped cache cleared).  fetchAPI never
rejects (every failure path resolves with a fallback value: an empty array
for the /logs, /logs-direct, /outputs and /outputs-direct listing
endpoints, a mock settings object for /settings, otherwise an object with
success=false and isErrorResponse=true), so control always reaches the
post-response refresh, where `outputsByType.update(value => value)` throws
a TypeError on the derived store; the function's catch logs it and returns
`false` without rolling back the removal, leaving the response checks
below the throwing line unreachable. -/
theorem delete_always_resolves_false (st : OutputStoreState) (id : String)
    (outcome : TransportOutcome) :
    (deleteOutputFile st id outcome).2 = false ∧
    (deleteOutputFile st id outcome).1.outputFiles
        = st.outputFiles.filter (fun f => f.id ≠ id) ∧
    (deleteOutputFile st id outcome).1.priorityOutputFiles
        = st.priorityOutputFiles.filter (fun f => f.id ≠ id) ∧
    (deleteOutputFile st id outcome).1.cacheData = none :=
  ⟨rfl, rfl, rfl, rfl⟩

end Rpage
